import Mathlib

/-!
Shallow embedding of the Lifeblood equipment-check form application
(`src/app.py`, with the table layout from `src/setup_lifeblood_table.py`).

The embedding covers the submission pipeline: field validation of the raw
form inputs, construction of the insert payload, the parameterized insert
statement, and the recent-submissions read query, together with the
store-side interpretation of the bound parameters.

Modelling conventions (each noted again at the definition it concerns):
* Python strings are Lean `String`s restricted to the ASCII repertoire the
  form data uses; `str.strip()` is modelled over the ASCII whitespace set.
* `datetime.date.fromisoformat` is modelled as the strict `YYYY-MM-DD`
  parser that the code's own error message documents.
* `float(...)` is modelled by an exact-valued parser of the Python float
  literal grammar; the unbounded-precision rational stands for the value a
  double would carry, so the `str(float(x))` / `TRY_CAST ... AS DOUBLE`
  round trip (Python `repr` of a double re-parses to the same double) is
  modelled as carrying the parsed value itself.
* External effects (the SQL warehouse, the result-chunk endpoint) are
  modelled as an explicit `Store` whose failure switches mirror the
  exception paths of the Python code.
-/

/-- ASCII whitespace set stripped by Python `str.strip()`:
space, tab, newline, carriage return, vertical tab, form feed. -/
def pyWhitespace (c : Char) : Bool :=
  c == ' ' || c == '\t' || c == '\n' || c == '\r' || c == '\x0b' || c == '\x0c'

/-- Python `str.strip()`: remove leading and trailing whitespace. -/
def pyStrip (s : String) : String :=
  String.mk (((s.data.dropWhile pyWhitespace).reverse.dropWhile pyWhitespace).reverse)

/-- Decimal digit value of a character, `none` for non-digits. -/
def digVal (c : Char) : Option Nat :=
  if c = '0' then some 0
  else if c = '1' then some 1
  else if c = '2' then some 2
  else if c = '3' then some 3
  else if c = '4' then some 4
  else if c = '5' then some 5
  else if c = '6' then some 6
  else if c = '7' then some 7
  else if c = '8' then some 8
  else if c = '9' then some 9
  else none

/-- The decimal digit character for a digit value below ten. -/
def digChar (n : Nat) : Char :=
  match n with
  | 0 => '0'
  | 1 => '1'
  | 2 => '2'
  | 3 => '3'
  | 4 => '4'
  | 5 => '5'
  | 6 => '6'
  | 7 => '7'
  | 8 => '8'
  | 9 => '9'
  | _ => '0'

/-- A Python `datetime.date`: proleptic Gregorian calendar date. -/
structure PyDate where
  year : Nat
  month : Nat
  day : Nat
deriving DecidableEq

/-- Gregorian leap-year rule. -/
def isLeapYear (y : Nat) : Bool :=
  y % 4 == 0 && (y % 100 != 0 || y % 400 == 0)

/-- Days in a month of the Gregorian calendar. -/
def daysInMonth (y m : Nat) : Nat :=
  if m = 2 then (if isLeapYear y then 29 else 28)
  else if m = 4 ∨ m = 6 ∨ m = 9 ∨ m = 11 then 30
  else 31

/-- `datetime.date.fromisoformat`: strict `YYYY-MM-DD` parsing with calendar
validity checking (year 0001-9999, month 1-12, day within the month), as
documented by the form's own error message
"Calibration due date must follow YYYY-MM-DD format.". -/
def dateFromIsoformat (s : String) : Option PyDate :=
  match s.data with
  | [y1, y2, y3, y4, h1, m1, m2, h2, d1, d2] =>
    if h1 = '-' ∧ h2 = '-' then
      match digVal y1, digVal y2, digVal y3, digVal y4,
            digVal m1, digVal m2, digVal d1, digVal d2 with
      | some n1, some n2, some n3, some n4, some n5, some n6, some n7, some n8 =>
        if 1 ≤ ((n1 * 10 + n2) * 10 + n3) * 10 + n4 ∧ 1 ≤ n5 * 10 + n6 ∧
            n5 * 10 + n6 ≤ 12 ∧ 1 ≤ n7 * 10 + n8 ∧
            n7 * 10 + n8 ≤ daysInMonth (((n1 * 10 + n2) * 10 + n3) * 10 + n4) (n5 * 10 + n6) then
          some ⟨((n1 * 10 + n2) * 10 + n3) * 10 + n4, n5 * 10 + n6, n7 * 10 + n8⟩
        else none
      | _, _, _, _, _, _, _, _ => none
    else none
  | _ => none

/-- Two-digit zero-padded decimal rendering (`%02d` for values below 100). -/
def pad2 (n : Nat) : List Char :=
  [digChar (n / 10 % 10), digChar (n % 10)]

/-- Four-digit zero-padded decimal rendering (`%04d` for values below 10000). -/
def pad4 (n : Nat) : List Char :=
  [digChar (n / 1000 % 10), digChar (n / 100 % 10), digChar (n / 10 % 10), digChar (n % 10)]

/-- `datetime.date.isoformat`: render as `YYYY-MM-DD`. -/
def PyDate.isoformat (d : PyDate) : String :=
  String.mk (pad4 d.year ++ '-' :: (pad2 d.month ++ '-' :: pad2 d.day))

/-- The value of a Python float: an exact rational for finite values
(standing for the value the IEEE double denotes), or an infinity or NaN. -/
inductive PyNum where
  | finite (q : ℚ)
  | inf (neg : Bool)
  | nan
deriving DecidableEq

/-- Longest run of decimal digits with Python's underscore rule (an
underscore is allowed only between two digits of the same run).  Returns the
accumulated value, the number of digits consumed, and the rest. -/
def digitRunAux (acc n : Nat) : List Char → Nat × Nat × List Char
  | [] => (acc, n, [])
  | c :: cs =>
    match digVal c with
    | some d => digitRunAux (acc * 10 + d) (n + 1) cs
    | none =>
      if c = '_' ∧ 0 < n then
        match cs with
        | c2 :: cs2 =>
          match digVal c2 with
          | some d => digitRunAux (acc * 10 + d) (n + 1) cs2
          | none => (acc, n, c :: cs)
        | [] => (acc, n, c :: cs)
      else (acc, n, c :: cs)

/-- Exact value `(-1)^neg * mant * 10^e` as a rational. -/
def ratValue (neg : Bool) (mant : Nat) (e : Int) : ℚ :=
  let mag : ℚ :=
    if 0 ≤ e then (mant : ℚ) * (10 : ℚ) ^ e.toNat
    else (mant : ℚ) / (10 : ℚ) ^ (-e).toNat
  if neg then -mag else mag

/-- Python `float(s)` on an already-stripped string: optional sign, then
`inf`/`infinity`/`nan` (case-insensitive) or a decimal literal
`digits [. digits] [(e|E) [sign] digits]` with at least one mantissa digit,
underscores only between digits.  Returns the exact denoted value, `none`
when `float` would raise `ValueError`.  (ASCII digits only; the unbounded
rational stands for the double the literal denotes.) -/
def pyFloat (s : String) : Option PyNum :=
  let signSplit : Bool × List Char :=
    match s.data with
    | '+' :: rest => (false, rest)
    | '-' :: rest => (true, rest)
    | rest => (false, rest)
  let neg := signSplit.1
  let cs := signSplit.2
  let low := cs.map Char.toLower
  if low = ['i', 'n', 'f'] ∨ low = ['i', 'n', 'f', 'i', 'n', 'i', 't', 'y'] then
    some (PyNum.inf neg)
  else if low = ['n', 'a', 'n'] then
    some PyNum.nan
  else
    let ipart := digitRunAux 0 0 cs
    let ival := ipart.1
    let icnt := ipart.2.1
    let cs1 := ipart.2.2
    let fpart :=
      match cs1 with
      | '.' :: rest => digitRunAux 0 0 rest
      | _ => (0, 0, cs1)
    let fval := fpart.1
    let fcnt := fpart.2.1
    let cs2 := fpart.2.2
    let mant := ival * 10 ^ fcnt + fval
    match cs2 with
    | c :: rest =>
      if c = 'e' ∨ c = 'E' then
        let esplit : Bool × List Char :=
          match rest with
          | '+' :: r => (false, r)
          | '-' :: r => (true, r)
          | r => (false, r)
        let epart := digitRunAux 0 0 esplit.2
        if epart.2.2 = [] ∧ 0 < icnt + fcnt ∧ 0 < epart.2.1 then
          some (PyNum.finite (ratValue neg mant
            ((if esplit.1 then -(epart.1 : Int) else (epart.1 : Int)) - (fcnt : Int))))
        else none
      else none
    | [] =>
      if 0 < icnt + fcnt then
        some (PyNum.finite (ratValue neg mant (-(fcnt : Int))))
      else none

/-! ### Raw form inputs and validation (`app.py` lines 247-325) -/

/-- The raw values collected by the form widgets, one per input control.
Toggles deliver booleans, the date picker a date, everything else free text
(select boxes deliver one of their fixed option strings). -/
structure RawInput where
  inspection_date : PyDate
  facility_name : String
  nurse_name : String
  machine_type : String
  machine_id : String
  room_location : String
  power_status : String
  alarms_functional : Bool
  calibration_confirmed : Bool
  calibration_due_raw : String
  temperature_raw : String
  pressure_raw : String
  cleaning_status : String
  issues_noted : String
  follow_up_required : Bool
  follow_up_actions : String
  user_email : Option String

def msgFacility : String := "Facility name is required."
def msgInspector : String := "Inspector name is required."
def msgEquipment : String := "Equipment ID is required."
def msgLocation : String := "Location is required."
def msgCalibration : String := "Calibration due date must follow YYYY-MM-DD format."
def msgTemperature : String := "Temperature must be recorded as a number (e.g. 4.5)."
def msgPressure : String := "Pressure must be recorded as a number (e.g. 101.3)."
def msgFollowUp : String := "Provide follow-up actions when follow-up is marked as required."

/-- The `required_fields` dict of labels and values (`app.py` 292-297),
in its insertion order. -/
def required_fields (r : RawInput) : List (String × String) :=
  [("Facility name", r.facility_name),
   ("Inspector name", r.nurse_name),
   ("Equipment ID", r.machine_id),
   ("Location", r.room_location)]

/-- The loop over `required_fields` (`app.py` 299-301): append
`"<label> is required."` for every value that is empty after stripping. -/
def requiredErrors (r : RawInput) : List String :=
  (required_fields r).foldl
    (fun acc lv => if pyStrip lv.2 = "" then acc ++ [lv.1 ++ " is required."] else acc) []

/-- Calibration-due-date handling (`app.py` 303-308): blank input leaves the
value `None`; non-blank input must parse with `date.fromisoformat` (after
stripping) and is normalised to its `isoformat` string, else the format
error is appended. -/
def calibrationCheck (raw : String) : Option String × List String :=
  if pyStrip raw = "" then (none, [])
  else
    match dateFromIsoformat (pyStrip raw) with
    | some d => (some d.isoformat, [])
    | none => (none, [msgCalibration])

/-- Numeric field handling (`app.py` 310-322, used for temperature and
pressure): blank input leaves the empty value (modelled `none`); non-blank
input must parse with `float` (after stripping), else `msg` is appended.
Python keeps the parsed value as `str(float(...))`; we carry the value
itself (see the header note on the repr round trip). -/
def numericCheck (raw : String) (msg : String) : Option PyNum × List String :=
  if pyStrip raw = "" then (none, [])
  else
    match pyFloat (pyStrip raw) with
    | some v => (some v, [])
    | none => (none, [msg])

/-- Follow-up cross-check (`app.py` 324-325). -/
def followUpErrors (r : RawInput) : List String :=
  if r.follow_up_required ∧ pyStrip r.follow_up_actions = "" then [msgFollowUp] else []

/-- Outcome of the validation block: the collected error messages in the
order the code appends them, and the coerced optional values. -/
structure Validation where
  errors : List String
  calibration_due_value : Option String
  temperature_value : Option PyNum
  pressure_value : Option PyNum
deriving DecidableEq

/-- The validation block (`app.py` 290-325), run on form submission. -/
def validate (r : RawInput) : Validation :=
  { errors := requiredErrors r
      ++ (calibrationCheck r.calibration_due_raw).2
      ++ (numericCheck r.temperature_raw msgTemperature).2
      ++ (numericCheck r.pressure_raw msgPressure).2
      ++ followUpErrors r,
    calibration_due_value := (calibrationCheck r.calibration_due_raw).1,
    temperature_value := (numericCheck r.temperature_raw msgTemperature).1,
    pressure_value := (numericCheck r.pressure_raw msgPressure).1 }

/-! ### Payload construction and the submit handler (`app.py` 327-358) -/

/-- `bool_to_str` (`app.py` 86-87). -/
def bool_to_str (value : Bool) : String :=
  if value then "true" else "false"

/-- The payload dict built on successful validation (`app.py` 331-349), with
its fields in the dict's insertion order.  All text fields carry the
stripped raw input; the two numeric fields carry the value that Python
stores as `str(float(...))` (or `none` for the empty string). -/
structure Payload where
  inspection_date : String
  facility_name : String
  nurse_name : String
  machine_type : String
  machine_id : String
  room_location : String
  power_status : String
  alarms_functional : String
  calibration_due_date : String
  calibration_confirmed : String
  temperature_celsius : Option PyNum
  pressure_kpa : Option PyNum
  cleaning_status : String
  issues_noted : String
  follow_up_required : String
  follow_up_actions : String
  user_email : String
deriving DecidableEq

/-- Build the payload dict from the raw inputs and the validation outcome
(`app.py` 331-349). -/
def buildPayload (r : RawInput) (v : Validation) : Payload :=
  { inspection_date := r.inspection_date.isoformat,
    facility_name := pyStrip r.facility_name,
    nurse_name := pyStrip r.nurse_name,
    machine_type := r.machine_type,
    machine_id := pyStrip r.machine_id,
    room_location := pyStrip r.room_location,
    power_status := r.power_status,
    alarms_functional := bool_to_str r.alarms_functional,
    calibration_due_date := v.calibration_due_value.getD "",
    calibration_confirmed := bool_to_str r.calibration_confirmed,
    temperature_celsius := v.temperature_value,
    pressure_kpa := v.pressure_value,
    cleaning_status := r.cleaning_status,
    issues_noted := pyStrip r.issues_noted,
    follow_up_required := bool_to_str r.follow_up_required,
    follow_up_actions := pyStrip r.follow_up_actions,
    user_email := r.user_email.getD "" }

/-- What the submit branch does with a submission: either display the
collected error messages, or hand the payload to `insert_submission`. -/
inductive SubmitAction where
  | showErrors (messages : List String)
  | insertPayload (p : Payload)
deriving DecidableEq

/-- The `if submitted:` branch (`app.py` 289-353): validate, and either
surface every error without touching the store, or build the payload and
invoke the insert. -/
def handleSubmit (r : RawInput) : SubmitAction :=
  let v := validate r
  if v.errors = [] then SubmitAction.insertPayload (buildPayload r v)
  else SubmitAction.showErrors v.errors

/-! ### The parameterized insert (`app.py` 159-207) -/

/-- Default catalog name (`CHECKS_CATALOG`; environment override is external
configuration). -/
def CATALOG_NAME : String := "alex_feng"

/-- Default schema name (`CHECKS_SCHEMA`). -/
def SCHEMA_NAME : String := "lifeblood_checks"

/-- Default table name (`CHECKS_TABLE`). -/
def TABLE_NAME : String := "lifeblood_equipment_checks"

/-- A bound parameter value: the string payload entries, or a numeric slot
(the value Python ships as `str(float(...))`, `none` for the empty
string). -/
inductive PVal where
  | str (v : String)
  | numOpt (v : Option PyNum)
deriving DecidableEq

/-- `payload.items()`: the named parameters in dict insertion order
(`app.py` 202-205 builds one `StatementParameterListItem` per entry). -/
def Payload.items (p : Payload) : List (String × PVal) :=
  [("inspection_date", PVal.str p.inspection_date),
   ("facility_name", PVal.str p.facility_name),
   ("nurse_name", PVal.str p.nurse_name),
   ("machine_type", PVal.str p.machine_type),
   ("machine_id", PVal.str p.machine_id),
   ("room_location", PVal.str p.room_location),
   ("power_status", PVal.str p.power_status),
   ("alarms_functional", PVal.str p.alarms_functional),
   ("calibration_due_date", PVal.str p.calibration_due_date),
   ("calibration_confirmed", PVal.str p.calibration_confirmed),
   ("temperature_celsius", PVal.numOpt p.temperature_celsius),
   ("pressure_kpa", PVal.numOpt p.pressure_kpa),
   ("cleaning_status", PVal.str p.cleaning_status),
   ("issues_noted", PVal.str p.issues_noted),
   ("follow_up_required", PVal.str p.follow_up_required),
   ("follow_up_actions", PVal.str p.follow_up_actions),
   ("user_email", PVal.str p.user_email)]

/-- The insert statement text (`app.py` 160-200).  The f-string interpolates
only the configured catalog, schema and table names; every payload value
appears solely as a named `:parameter` marker. -/
def insertStatementText : String :=
  "INSERT INTO " ++ CATALOG_NAME ++ "." ++ SCHEMA_NAME ++ "." ++ TABLE_NAME ++
  " (inspection_date, facility_name, nurse_name, machine_type, machine_id," ++
  " room_location, power_status, alarms_functional, calibration_due_date," ++
  " calibration_confirmed, temperature_celsius, pressure_kpa, cleaning_status," ++
  " issues_noted, follow_up_required, follow_up_actions, user_email, submitted_at)" ++
  " VALUES (to_date(:inspection_date), :facility_name, :nurse_name, :machine_type," ++
  " :machine_id, :room_location, :power_status," ++
  " CASE WHEN lower(:alarms_functional) = \x27true\x27 THEN TRUE ELSE FALSE END," ++
  " CASE WHEN :calibration_due_date = \x27\x27 THEN NULL" ++
  " ELSE to_date(:calibration_due_date) END," ++
  " CASE WHEN lower(:calibration_confirmed) = \x27true\x27 THEN TRUE ELSE FALSE END," ++
  " TRY_CAST(NULLIF(:temperature_celsius, \x27\x27) AS DOUBLE)," ++
  " TRY_CAST(NULLIF(:pressure_kpa, \x27\x27) AS DOUBLE)," ++
  " :cleaning_status, :issues_noted," ++
  " CASE WHEN lower(:follow_up_required) = \x27true\x27 THEN TRUE ELSE FALSE END," ++
  " :follow_up_actions, :user_email, current_timestamp())"

/-- `insert_submission` (`app.py` 159-207): the statement text it executes
and the named bound parameters it passes alongside. -/
def insert_submission (p : Payload) : String × List (String × PVal) :=
  (insertStatementText, p.items)

/-! ### Store-side interpretation of the bound parameters -/

/-- SQL `lower` on the parameter strings the app sends (ASCII). -/
def sqlLower (s : String) : String :=
  String.mk (s.data.map Char.toLower)

/-- The boolean columns: `CASE WHEN lower(:x) = 'true' THEN TRUE ELSE FALSE
END` (`app.py` 188, 190, 195). -/
def sqlBoolColumn (x : String) : Bool :=
  if sqlLower x = "true" then true else false

/-- The calibration date column: `CASE WHEN :x = '' THEN NULL ELSE
to_date(:x) END` (`app.py` 189); the date is kept as its ISO string. -/
def sqlDateColumn (x : String) : Option String :=
  if x = "" then none else some x

/-- The numeric columns: `TRY_CAST(NULLIF(:x, '') AS DOUBLE)` (`app.py`
191-192).  `NULLIF` maps the empty string (our `none` slot) to NULL, and
`TRY_CAST` re-parses the `str(float(...))` repr Python sent, recovering the
same double; the composition is therefore the identity on the carried
value. -/
def sqlDoubleColumn (v : Option PyNum) : Option PyNum := v

/-! ### The recent-submissions read (`app.py` 120-156) -/

/-- A full row of the `lifeblood_equipment_checks` table
(`setup_lifeblood_table.py`), with `submitted_at` as the store-assigned
timestamp (modelled as a natural number). -/
structure TableRecord where
  inspection_date : String
  facility_name : String
  nurse_name : String
  machine_type : String
  machine_id : String
  room_location : String
  power_status : String
  alarms_functional : Bool
  calibration_due_date : Option String
  calibration_confirmed : Bool
  temperature_celsius : Option PyNum
  pressure_kpa : Option PyNum
  cleaning_status : String
  issues_noted : String
  follow_up_required : Bool
  follow_up_actions : String
  user_email : String
  submitted_at : Nat
deriving DecidableEq

/-- The eight-column projection selected by the recent-submissions query
(`app.py` 122-130). -/
structure RecentRow where
  inspection_date : String
  facility_name : String
  machine_type : String
  machine_id : String
  power_status : String
  follow_up_required : Bool
  submitted_at : Nat
  user_email : String
deriving DecidableEq

/-- The `SELECT` column list applied to one table row. -/
def projectRecent (t : TableRecord) : RecentRow :=
  { inspection_date := t.inspection_date,
    facility_name := t.facility_name,
    machine_type := t.machine_type,
    machine_id := t.machine_id,
    power_status := t.power_status,
    follow_up_required := t.follow_up_required,
    submitted_at := t.submitted_at,
    user_email := t.user_email }

/-- `ORDER BY submitted_at DESC`: `a` comes no later than `b` when its
timestamp is no smaller. -/
def submittedGE (a b : TableRecord) : Prop :=
  b.submitted_at ≤ a.submitted_at

instance : DecidableRel submittedGE :=
  fun a b => inferInstanceAs (Decidable (b.submitted_at ≤ a.submitted_at))

instance : IsTotal TableRecord submittedGE :=
  ⟨fun a b => (Nat.le_total a.submitted_at b.submitted_at).symm⟩

instance : IsTrans TableRecord submittedGE :=
  ⟨fun _ _ _ hab hbc => Nat.le_trans hbc hab⟩

/-- Store-side semantics of the query text (`app.py` 121-134): order the
table by `submitted_at` descending, keep at most `limit` rows, project the
eight selected columns. -/
def runFetchQuery (table : List TableRecord) (limit : Nat) : List RecentRow :=
  ((List.insertionSort submittedGE table).take limit).map projectRecent

/-- The external warehouse as seen by one `fetch_recent_submissions` call:
its table contents and the failure switches of the two round trips the code
makes (`execute_sql`, and `get_statement_result_chunk_n` when the response
carries no inline data array). -/
structure Store where
  table : List TableRecord
  execFails : Bool
  inlineResult : Bool
  chunkFails : Bool
deriving DecidableEq

/-- `fetch_recent_submissions` (`app.py` 120-156).  `Except.error` is a
propagated Python exception; `Except.ok none` is the explicit `return None`
(unavailable); `Except.ok (some rows)` is the returned data frame.  Only
`execute_sql` sits inside the `try`/`except` (lines 136-139); the
result-chunk fetch (lines 150-153), taken when the response has no truthy
inline `data_array`, is unguarded, so its failure propagates. -/
def fetch_recent_submissions (st : Store) (limit : Nat := 20) :
    Except Unit (Option (List RecentRow)) :=
  if st.execFails then Except.ok none
  else
    let rows := runFetchQuery st.table limit
    if st.inlineResult ∧ rows ≠ [] then Except.ok (some rows)
    else if st.chunkFails then Except.error ()
    else Except.ok (some rows)

/-! ### Helper lemmas about the validator components -/

lemma requiredErrors_eq (r : RawInput) :
    requiredErrors r =
      (if pyStrip r.facility_name = "" then [msgFacility] else []) ++
      (if pyStrip r.nurse_name = "" then [msgInspector] else []) ++
      (if pyStrip r.machine_id = "" then [msgEquipment] else []) ++
      (if pyStrip r.room_location = "" then [msgLocation] else []) := by
  simp only [requiredErrors, required_fields, List.foldl_cons, List.foldl_nil]
  split_ifs <;> rfl

lemma mem_requiredErrors {r : RawInput} {m : String} (h : m ∈ requiredErrors r) :
    m = msgFacility ∨ m = msgInspector ∨ m = msgEquipment ∨ m = msgLocation := by
  rw [requiredErrors_eq] at h
  simp only [List.mem_append] at h
  rcases h with ((h | h) | h) | h <;> (split at h <;> simp_all)

lemma mem_calibrationCheck {raw : String} {m : String}
    (h : m ∈ (calibrationCheck raw).2) : m = msgCalibration := by
  by_cases hc : pyStrip raw = ""
  · simp [calibrationCheck, hc] at h
  · rcases hd : dateFromIsoformat (pyStrip raw) with _ | d
    · simp [calibrationCheck, hc, hd] at h; exact h
    · simp [calibrationCheck, hc, hd] at h

lemma mem_numericCheck {raw msg m : String}
    (h : m ∈ (numericCheck raw msg).2) : m = msg := by
  by_cases hc : pyStrip raw = ""
  · simp [numericCheck, hc] at h
  · rcases hv : pyFloat (pyStrip raw) with _ | v
    · simp [numericCheck, hc, hv] at h; exact h
    · simp [numericCheck, hc, hv] at h

lemma mem_followUpErrors {r : RawInput} {m : String}
    (h : m ∈ followUpErrors r) : m = msgFollowUp := by
  unfold followUpErrors at h
  split at h <;> simp_all

lemma count_calibrationCheck_eq_zero {raw m : String} (h : ¬ m = msgCalibration) :
    ((calibrationCheck raw).2).count m = 0 :=
  List.count_eq_zero.mpr (fun hm => h (mem_calibrationCheck hm))

lemma count_numericCheck_eq_zero {raw msg m : String} (h : ¬ m = msg) :
    ((numericCheck raw msg).2).count m = 0 :=
  List.count_eq_zero.mpr (fun hm => h (mem_numericCheck hm))

lemma count_followUpErrors_eq_zero {r : RawInput} {m : String} (h : ¬ m = msgFollowUp) :
    (followUpErrors r).count m = 0 :=
  List.count_eq_zero.mpr (fun hm => h (mem_followUpErrors hm))

/-! ### Sample inputs used by the witnesses -/

/-- A submission that passes every validation rule. -/
def sampleOk : RawInput :=
  { inspection_date := ⟨2025, 1, 15⟩,
    facility_name := "Sydney Processing Centre",
    nurse_name := "Alex Smith",
    machine_type := "Centrifuge",
    machine_id := "FX-2041",
    room_location := "Donor Room 3",
    power_status := "OK",
    alarms_functional := true,
    calibration_confirmed := true,
    calibration_due_raw := "",
    temperature_raw := "4.5",
    pressure_raw := "",
    cleaning_status := "Sanitized",
    issues_noted := "",
    follow_up_required := false,
    follow_up_actions := "",
    user_email := some "alex@example.com" }

/-- Same submission with a whitespace-only facility name. -/
def sampleMissingFacility : RawInput := { sampleOk with facility_name := "   " }

/-- Same submission with a malformed calibration due date. -/
def sampleBadDate : RawInput := { sampleOk with calibration_due_raw := "2025-13-40" }

/-- Same submission with a valid calibration due date. -/
def sampleGoodDate : RawInput := { sampleOk with calibration_due_raw := "2024-02-29" }

/-- Same submission with a non-numeric temperature. -/
def sampleBadTemp : RawInput := { sampleOk with temperature_raw := "not a number" }

/-- Same submission with follow-up required but no actions given. -/
def sampleFollowUpMissing : RawInput :=
  { sampleOk with follow_up_required := true, follow_up_actions := "   " }

/-! ### The claims -/

/-- C1: for every submission in which any of the four required text fields
(facility_name, nurse_name, machine_id, room_location) is empty or
whitespace-only after trimming, validation fails, and the returned error
list contains exactly one "<Field> is required." message for each such
field — every required field is checked, none is short-circuited. -/
theorem C1_required_field_errors (r : RawInput)
    (hany : pyStrip r.facility_name = "" ∨ pyStrip r.nurse_name = "" ∨
      pyStrip r.machine_id = "" ∨ pyStrip r.room_location = "") :
    (validate r).errors ≠ [] ∧
    (validate r).errors.count msgFacility = (if pyStrip r.facility_name = "" then 1 else 0) ∧
    (validate r).errors.count msgInspector = (if pyStrip r.nurse_name = "" then 1 else 0) ∧
    (validate r).errors.count msgEquipment = (if pyStrip r.machine_id = "" then 1 else 0) ∧
    (validate r).errors.count msgLocation = (if pyStrip r.room_location = "" then 1 else 0) := by
  have key : ∀ m : String, ¬ m = msgCalibration → ¬ m = msgTemperature → ¬ m = msgPressure →
      ¬ m = msgFollowUp → (validate r).errors.count m = (requiredErrors r).count m := by
    intro m k1 k2 k3 k4
    simp only [validate]
    rw [List.count_append, List.count_append, List.count_append, List.count_append,
      count_calibrationCheck_eq_zero k1, count_numericCheck_eq_zero k2,
      count_numericCheck_eq_zero k3, count_followUpErrors_eq_zero k4]
    omega
  have cF := key msgFacility (by decide) (by decide) (by decide) (by decide)
  have cI := key msgInspector (by decide) (by decide) (by decide) (by decide)
  have cE := key msgEquipment (by decide) (by decide) (by decide) (by decide)
  have cL := key msgLocation (by decide) (by decide) (by decide) (by decide)
  have rF : (requiredErrors r).count msgFacility =
      (if pyStrip r.facility_name = "" then 1 else 0) := by
    rw [requiredErrors_eq]; split_ifs <;> decide
  have rI : (requiredErrors r).count msgInspector =
      (if pyStrip r.nurse_name = "" then 1 else 0) := by
    rw [requiredErrors_eq]; split_ifs <;> decide
  have rE : (requiredErrors r).count msgEquipment =
      (if pyStrip r.machine_id = "" then 1 else 0) := by
    rw [requiredErrors_eq]; split_ifs <;> decide
  have rL : (requiredErrors r).count msgLocation =
      (if pyStrip r.room_location = "" then 1 else 0) := by
    rw [requiredErrors_eq]; split_ifs <;> decide
  refine ⟨?_, cF.trans rF, cI.trans rI, cE.trans rE, cL.trans rL⟩
  intro hnil
  rcases hany with h | h | h | h
  · have hc := cF.trans rF; rw [hnil, if_pos h] at hc; simp at hc
  · have hc := cI.trans rI; rw [hnil, if_pos h] at hc; simp at hc
  · have hc := cE.trans rE; rw [hnil, if_pos h] at hc; simp at hc
  · have hc := cL.trans rL; rw [hnil, if_pos h] at hc; simp at hc

/-- C1 witness: a submission whose facility name is whitespace-only fails
validation with exactly one facility message and none for the other
fields. -/
theorem C1_required_field_errors_witness :
    (validate sampleMissingFacility).errors ≠ [] ∧
    (validate sampleMissingFacility).errors.count msgFacility =
      (if pyStrip sampleMissingFacility.facility_name = "" then 1 else 0) ∧
    (validate sampleMissingFacility).errors.count msgInspector =
      (if pyStrip sampleMissingFacility.nurse_name = "" then 1 else 0) ∧
    (validate sampleMissingFacility).errors.count msgEquipment =
      (if pyStrip sampleMissingFacility.machine_id = "" then 1 else 0) ∧
    (validate sampleMissingFacility).errors.count msgLocation =
      (if pyStrip sampleMissingFacility.room_location = "" then 1 else 0) :=
  C1_required_field_errors sampleMissingFacility (Or.inl (by decide))

/-- C2: when validation fails, the submit handler surfaces every collected
error message and the insert is never invoked; the insert is invoked
exactly when the error list is empty. -/
theorem C2_fail_fast (r : RawInput) :
    ((validate r).errors ≠ [] →
      handleSubmit r = SubmitAction.showErrors (validate r).errors ∧
      ∀ p : Payload, handleSubmit r ≠ SubmitAction.insertPayload p) ∧
    ((validate r).errors = [] →
      handleSubmit r = SubmitAction.insertPayload (buildPayload r (validate r))) := by
  constructor
  · intro h
    constructor
    · simp [handleSubmit, h]
    · intro p hp
      simp [handleSubmit, h] at hp
  · intro h
    simp [handleSubmit, h]

/-- C2 witness: the invalid sample only displays its errors, the valid
sample reaches the insert with its payload. -/
theorem C2_fail_fast_witness :
    handleSubmit sampleMissingFacility =
      SubmitAction.showErrors (validate sampleMissingFacility).errors ∧
    handleSubmit sampleOk =
      SubmitAction.insertPayload (buildPayload sampleOk (validate sampleOk)) :=
  ⟨((C2_fail_fast sampleMissingFacility).1 (by decide)).1,
   (C2_fail_fast sampleOk).2 (by decide)⟩

/-! ### Digit and date round-trip lemmas -/

lemma digVal_eq_some {c : Char} {n : Nat} (h : digVal c = some n) :
    c = digChar n ∧ n < 10 := by
  unfold digVal at h
  split_ifs at h with h0 h1 h2 h3 h4 h5 h6 h7 h8 h9
  · injection h with h; subst h; exact ⟨h0, by omega⟩
  · injection h with h; subst h; exact ⟨h1, by omega⟩
  · injection h with h; subst h; exact ⟨h2, by omega⟩
  · injection h with h; subst h; exact ⟨h3, by omega⟩
  · injection h with h; subst h; exact ⟨h4, by omega⟩
  · injection h with h; subst h; exact ⟨h5, by omega⟩
  · injection h with h; subst h; exact ⟨h6, by omega⟩
  · injection h with h; subst h; exact ⟨h7, by omega⟩
  · injection h with h; subst h; exact ⟨h8, by omega⟩
  · injection h with h; subst h; exact ⟨h9, by omega⟩

lemma isoformat_dateFromIsoformat {s : String} {d : PyDate}
    (h : dateFromIsoformat s = some d) : d.isoformat = s := by
  unfold dateFromIsoformat at h
  split at h
  · rename_i y1 y2 y3 y4 c5 m1 m2 c8 d1 d2 heq
    split at h
    · rename_i hdash
      split at h
      · rename_i n1 n2 n3 n4 n5 n6 n7 n8 e1 e2 e3 e4 e5 e6 e7 e8
        split at h
        · rename_i hrange
          injection h with h
          subst h
          obtain ⟨hy1, hb1⟩ := digVal_eq_some e1
          obtain ⟨hy2, hb2⟩ := digVal_eq_some e2
          obtain ⟨hy3, hb3⟩ := digVal_eq_some e3
          obtain ⟨hy4, hb4⟩ := digVal_eq_some e4
          obtain ⟨hy5, hb5⟩ := digVal_eq_some e5
          obtain ⟨hy6, hb6⟩ := digVal_eq_some e6
          obtain ⟨hy7, hb7⟩ := digVal_eq_some e7
          obtain ⟨hy8, hb8⟩ := digVal_eq_some e8
          apply String.ext
          rw [heq]
          simp only [PyDate.isoformat, pad4, pad2]
          have q1 : (((n1 * 10 + n2) * 10 + n3) * 10 + n4) / 1000 % 10 = n1 := by omega
          have q2 : (((n1 * 10 + n2) * 10 + n3) * 10 + n4) / 100 % 10 = n2 := by omega
          have q3 : (((n1 * 10 + n2) * 10 + n3) * 10 + n4) / 10 % 10 = n3 := by omega
          have q4 : (((n1 * 10 + n2) * 10 + n3) * 10 + n4) % 10 = n4 := by omega
          have q5 : (n5 * 10 + n6) / 10 % 10 = n5 := by omega
          have q6 : (n5 * 10 + n6) % 10 = n6 := by omega
          have q7 : (n7 * 10 + n8) / 10 % 10 = n7 := by omega
          have q8 : (n7 * 10 + n8) % 10 = n8 := by omega
          rw [q1, q2, q3, q4, q5, q6, q7, q8,
            ← hy1, ← hy2, ← hy3, ← hy4, ← hy5, ← hy6, ← hy7, ← hy8]
          simp [hdash.1, hdash.2]
        · exact absurd h (by simp)
      · exact absurd h (by simp)
    · exact absurd h (by simp)
  · exact absurd h (by simp)

/-! ### Per-message absence lemmas over the full error list -/

lemma notin_errors_calibration (r : RawInput)
    (h : (calibrationCheck r.calibration_due_raw).2 = []) :
    msgCalibration ∉ (validate r).errors := by
  intro hmem
  simp only [validate, List.mem_append, h] at hmem
  rcases hmem with ((((hm | hm) | hm) | hm) | hm)
  · rcases mem_requiredErrors hm with hx | hx | hx | hx <;> exact absurd hx (by decide)
  · simp at hm
  · exact absurd (mem_numericCheck hm) (by decide)
  · exact absurd (mem_numericCheck hm) (by decide)
  · exact absurd (mem_followUpErrors hm) (by decide)

lemma notin_errors_temperature (r : RawInput)
    (h : (numericCheck r.temperature_raw msgTemperature).2 = []) :
    msgTemperature ∉ (validate r).errors := by
  intro hmem
  simp only [validate, List.mem_append, h] at hmem
  rcases hmem with ((((hm | hm) | hm) | hm) | hm)
  · rcases mem_requiredErrors hm with hx | hx | hx | hx <;> exact absurd hx (by decide)
  · exact absurd (mem_calibrationCheck hm) (by decide)
  · simp at hm
  · exact absurd (mem_numericCheck hm) (by decide)
  · exact absurd (mem_followUpErrors hm) (by decide)

lemma notin_errors_pressure (r : RawInput)
    (h : (numericCheck r.pressure_raw msgPressure).2 = []) :
    msgPressure ∉ (validate r).errors := by
  intro hmem
  simp only [validate, List.mem_append, h] at hmem
  rcases hmem with ((((hm | hm) | hm) | hm) | hm)
  · rcases mem_requiredErrors hm with hx | hx | hx | hx <;> exact absurd hx (by decide)
  · exact absurd (mem_calibrationCheck hm) (by decide)
  · exact absurd (mem_numericCheck hm) (by decide)
  · simp at hm
  · exact absurd (mem_followUpErrors hm) (by decide)

lemma notin_errors_followUp (r : RawInput) (h : followUpErrors r = []) :
    msgFollowUp ∉ (validate r).errors := by
  intro hmem
  simp only [validate, List.mem_append, h] at hmem
  rcases hmem with ((((hm | hm) | hm) | hm) | hm)
  · rcases mem_requiredErrors hm with hx | hx | hx | hx <;> exact absurd hx (by decide)
  · exact absurd (mem_calibrationCheck hm) (by decide)
  · exact absurd (mem_numericCheck hm) (by decide)
  · exact absurd (mem_numericCheck hm) (by decide)
  · simp at hm

/-! ### Component-outcome lemmas -/

lemma numericCheck_of_blank {raw msg : String} (hb : pyStrip raw = "") :
    numericCheck raw msg = (none, []) := by
  simp [numericCheck, hb]

lemma numericCheck_of_parse {raw msg : String} {v : PyNum}
    (hv : pyFloat (pyStrip raw) = some v) : numericCheck raw msg = (some v, []) := by
  by_cases hb : pyStrip raw = ""
  · have h0 : pyFloat "" = none := rfl
    rw [hb, h0] at hv
    exact Option.noConfusion hv
  · simp [numericCheck, hb, hv]

lemma numericCheck_of_fail {raw msg : String} (hb : ¬ pyStrip raw = "")
    (hn : pyFloat (pyStrip raw) = none) : numericCheck raw msg = (none, [msg]) := by
  simp [numericCheck, hb, hn]

/-- C3: a blank calibration-due-date input is valid and maps to null in the
validator and at the store; a non-blank input that does not parse as
`YYYY-MM-DD` makes validation fail with the date-format error; and parsing
a valid ISO date string followed by `isoformat` re-serialization yields the
same string. -/
theorem C3_calibration_date (r : RawInput) (s : String) :
    (pyStrip r.calibration_due_raw = "" →
      msgCalibration ∉ (validate r).errors ∧
      (validate r).calibration_due_value = none ∧
      sqlDateColumn ((buildPayload r (validate r)).calibration_due_date) = none) ∧
    (pyStrip r.calibration_due_raw ≠ "" →
      dateFromIsoformat (pyStrip r.calibration_due_raw) = none →
      msgCalibration ∈ (validate r).errors ∧ (validate r).errors ≠ []) ∧
    (∀ d : PyDate, dateFromIsoformat s = some d → PyDate.isoformat d = s) := by
  refine ⟨?_, ?_, fun d hd => isoformat_dateFromIsoformat hd⟩
  · intro hb
    have hcomp : calibrationCheck r.calibration_due_raw = (none, []) := by
      simp [calibrationCheck, hb]
    have hval : (validate r).calibration_due_value = none := by simp [validate, hcomp]
    refine ⟨notin_errors_calibration r (by simp [hcomp]), hval, ?_⟩
    simp [buildPayload, hval, sqlDateColumn]
  · intro hnb hnone
    have hcomp : calibrationCheck r.calibration_due_raw = (none, [msgCalibration]) := by
      simp [calibrationCheck, hnb, hnone]
    have hmem : msgCalibration ∈ (validate r).errors := by
      simp [validate, hcomp, List.mem_append]
    exact ⟨hmem, by intro hnil; rw [hnil] at hmem; simp at hmem⟩

/-- C3 witness: the malformed date sample gets the format error, a leap-day
string round-trips, and the blank-date sample gets no date error. -/
theorem C3_calibration_date_witness :
    (msgCalibration ∈ (validate sampleBadDate).errors ∧
      (validate sampleBadDate).errors ≠ []) ∧
    PyDate.isoformat ⟨2024, 2, 29⟩ = "2024-02-29" ∧
    msgCalibration ∉ (validate sampleOk).errors :=
  ⟨(C3_calibration_date sampleBadDate "x").2.1 (by decide) (by decide),
   (C3_calibration_date sampleOk "2024-02-29").2.2 ⟨2024, 2, 29⟩ (by decide),
   ((C3_calibration_date sampleOk "x").1 (by decide)).1⟩

/-- C4: for each of the two numeric fields, a blank raw string validates
with a null stored value, a parseable raw string validates and the stored
value equals the parsed number, and a non-blank unparseable raw string
makes validation fail with that field's numeric-format error. -/
theorem C4_numeric_fields (r : RawInput) :
    (pyStrip r.temperature_raw = "" →
      msgTemperature ∉ (validate r).errors ∧
      (validate r).temperature_value = none ∧
      sqlDoubleColumn ((buildPayload r (validate r)).temperature_celsius) = none) ∧
    (∀ v : PyNum, pyFloat (pyStrip r.temperature_raw) = some v →
      msgTemperature ∉ (validate r).errors ∧
      (validate r).temperature_value = some v ∧
      sqlDoubleColumn ((buildPayload r (validate r)).temperature_celsius) = some v) ∧
    (pyStrip r.temperature_raw ≠ "" → pyFloat (pyStrip r.temperature_raw) = none →
      msgTemperature ∈ (validate r).errors ∧ (validate r).errors ≠ []) ∧
    (pyStrip r.pressure_raw = "" →
      msgPressure ∉ (validate r).errors ∧
      (validate r).pressure_value = none ∧
      sqlDoubleColumn ((buildPayload r (validate r)).pressure_kpa) = none) ∧
    (∀ v : PyNum, pyFloat (pyStrip r.pressure_raw) = some v →
      msgPressure ∉ (validate r).errors ∧
      (validate r).pressure_value = some v ∧
      sqlDoubleColumn ((buildPayload r (validate r)).pressure_kpa) = some v) ∧
    (pyStrip r.pressure_raw ≠ "" → pyFloat (pyStrip r.pressure_raw) = none →
      msgPressure ∈ (validate r).errors ∧ (validate r).errors ≠ []) := by
  refine ⟨?_, ?_, ?_, ?_, ?_, ?_⟩
  · intro hb
    have hcomp := @numericCheck_of_blank r.temperature_raw msgTemperature hb
    have hval : (validate r).temperature_value = none := by simp [validate, hcomp]
    exact ⟨notin_errors_temperature r (by simp [hcomp]), hval,
      by simp [buildPayload, hval, sqlDoubleColumn]⟩
  · intro v hv
    have hcomp := @numericCheck_of_parse r.temperature_raw msgTemperature v hv
    have hval : (validate r).temperature_value = some v := by simp [validate, hcomp]
    exact ⟨notin_errors_temperature r (by simp [hcomp]), hval,
      by simp [buildPayload, hval, sqlDoubleColumn]⟩
  · intro hnb hn
    have hcomp := @numericCheck_of_fail r.temperature_raw msgTemperature hnb hn
    have hmem : msgTemperature ∈ (validate r).errors := by
      simp [validate, hcomp, List.mem_append]
    exact ⟨hmem, by intro hnil; rw [hnil] at hmem; simp at hmem⟩
  · intro hb
    have hcomp := @numericCheck_of_blank r.pressure_raw msgPressure hb
    have hval : (validate r).pressure_value = none := by simp [validate, hcomp]
    exact ⟨notin_errors_pressure r (by simp [hcomp]), hval,
      by simp [buildPayload, hval, sqlDoubleColumn]⟩
  · intro v hv
    have hcomp := @numericCheck_of_parse r.pressure_raw msgPressure v hv
    have hval : (validate r).pressure_value = some v := by simp [validate, hcomp]
    exact ⟨notin_errors_pressure r (by simp [hcomp]), hval,
      by simp [buildPayload, hval, sqlDoubleColumn]⟩
  · intro hnb hn
    have hcomp := @numericCheck_of_fail r.pressure_raw msgPressure hnb hn
    have hmem : msgPressure ∈ (validate r).errors := by
      simp [validate, hcomp, List.mem_append]
    exact ⟨hmem, by intro hnil; rw [hnil] at hmem; simp at hmem⟩

/-- C4 witness: "4.5" parses to the exact value 45/10 and is stored as that
value, the blank pressure field stores null, and a non-numeric temperature
fails validation. -/
theorem C4_numeric_fields_witness :
    ((validate sampleOk).temperature_value = some (PyNum.finite (ratValue false 45 (-1))) ∧
      sqlDoubleColumn ((buildPayload sampleOk (validate sampleOk)).temperature_celsius) =
        some (PyNum.finite (ratValue false 45 (-1)))) ∧
    sqlDoubleColumn ((buildPayload sampleOk (validate sampleOk)).pressure_kpa) = none ∧
    msgTemperature ∈ (validate sampleBadTemp).errors :=
  ⟨⟨((C4_numeric_fields sampleOk).2.1 (PyNum.finite (ratValue false 45 (-1))) rfl).2.1,
    ((C4_numeric_fields sampleOk).2.1 (PyNum.finite (ratValue false 45 (-1))) rfl).2.2⟩,
   ((C4_numeric_fields sampleOk).2.2.2.1 (by decide)).2.2,
   ((C4_numeric_fields sampleBadTemp).2.2.1 (by decide) (by decide)).1⟩

/-- C5: when follow-up is required and the actions field is blank after
trimming, validation fails with the follow-up error; when follow-up is not
required, that error is never emitted, whatever the actions field holds. -/
theorem C5_follow_up_rule (r1 r2 : RawInput) :
    (r1.follow_up_required = true → pyStrip r1.follow_up_actions = "" →
      msgFollowUp ∈ (validate r1).errors ∧ (validate r1).errors ≠ []) ∧
    (r2.follow_up_required = false → msgFollowUp ∉ (validate r2).errors) := by
  constructor
  · intro hreq hblank
    have hcomp : followUpErrors r1 = [msgFollowUp] := by
      simp [followUpErrors, hreq, hblank]
    have hmem : msgFollowUp ∈ (validate r1).errors := by
      simp [validate, hcomp, List.mem_append]
    exact ⟨hmem, by intro hnil; rw [hnil] at hmem; simp at hmem⟩
  · intro hreq
    exact notin_errors_followUp r2 (by simp [followUpErrors, hreq])

/-- C5 witness: required follow-up with blank actions fails; the sample with
follow-up off gets no follow-up error. -/
theorem C5_follow_up_rule_witness :
    (msgFollowUp ∈ (validate sampleFollowUpMissing).errors ∧
      (validate sampleFollowUpMissing).errors ≠ []) ∧
    msgFollowUp ∉ (validate sampleOk).errors :=
  ⟨(C5_follow_up_rule sampleFollowUpMissing sampleOk).1 rfl (by decide),
   (C5_follow_up_rule sampleFollowUpMissing sampleOk).2 rfl⟩

/-! ### Claims about the read path and the insert -/

/-- A store whose statement execution succeeds with no inline data array but
whose result-chunk fetch fails. -/
def chunkFailStore : Store :=
  { table := [], execFails := false, inlineResult := false, chunkFails := true }

/-- C6 counterexample: the claim says `fetch_recent` never propagates an
execution error.  But only `execute_sql` is inside the `try`/`except`
(`app.py` 136-139); the result-chunk fetch (`app.py` 150-153) is not, so
when the statement succeeds with no inline data (as in the routine zero-row
case) and the chunk fetch fails, the exception propagates instead of the
"unavailable" result being returned. -/
theorem C6_never_raises_counterexample :
    fetch_recent_submissions chunkFailStore 20 = Except.error () := rfl

/-- C6 (amended): a failure of the initial statement execution yields the
explicit "unavailable" result (`ok none`) rather than a raised fault; a
zero-row store with both round trips healthy yields the explicit "empty"
result (`ok (some [])`), which is distinct from "unavailable"; but a
failure of the unguarded result-chunk fetch (taken when the response
carries no inline data) propagates as a fault. -/
theorem C6_unavailable_and_empty (st : Store) (limit : Nat) :
    (st.execFails = true → fetch_recent_submissions st limit = Except.ok none) ∧
    (st.execFails = false → st.chunkFails = false → st.table = [] →
      fetch_recent_submissions st limit = Except.ok (some []) ∧
      (Except.ok (some ([] : List RecentRow)) : Except Unit (Option (List RecentRow)))
        ≠ Except.ok none) ∧
    (st.execFails = false → st.inlineResult = false → st.chunkFails = true →
      fetch_recent_submissions st limit = Except.error ()) := by
  refine ⟨?_, ?_, ?_⟩
  · intro h
    simp [fetch_recent_submissions, h]
  · intro h1 h2 h3
    have hrows : runFetchQuery st.table limit = [] := by
      rw [h3]; simp [runFetchQuery]
    constructor
    · simp [fetch_recent_submissions, h1, h2, hrows]
    · simp
  · intro h1 h2 h3
    simp [fetch_recent_submissions, h1, h2, h3]

/-- C6 witness: the three amended behaviours at concrete stores. -/
theorem C6_unavailable_and_empty_witness :
    fetch_recent_submissions ⟨[], true, false, false⟩ 20 = Except.ok none ∧
    fetch_recent_submissions ⟨[], false, false, false⟩ 20 = Except.ok (some []) ∧
    fetch_recent_submissions chunkFailStore 20 = Except.error () :=
  ⟨(C6_unavailable_and_empty ⟨[], true, false, false⟩ 20).1 rfl,
   ((C6_unavailable_and_empty ⟨[], false, false, false⟩ 20).2.1 rfl rfl rfl).1,
   (C6_unavailable_and_empty chunkFailStore 20).2.2 rfl rfl rfl⟩

/-- C7: when both store round trips succeed, `fetch_recent` returns exactly
the rows of the query semantics: at most `limit` of them (the argument
defaults to 20), sorted by submission timestamp descending, and each one
the fixed eight-column projection of some table record rather than the full
record. -/
theorem C7_fetch_recent_contract (st : Store) (limit : Nat)
    (hexec : st.execFails = false) (hchunk : st.chunkFails = false) :
    fetch_recent_submissions st limit = Except.ok (some (runFetchQuery st.table limit)) ∧
    (runFetchQuery st.table limit).length ≤ limit ∧
    List.Sorted (fun a b : RecentRow => b.submitted_at ≤ a.submitted_at)
      (runFetchQuery st.table limit) ∧
    (∀ row ∈ runFetchQuery st.table limit, ∃ rec ∈ st.table, row = projectRecent rec) ∧
    fetch_recent_submissions st = fetch_recent_submissions st 20 := by
  refine ⟨?_, ?_, ?_, ?_, rfl⟩
  · simp only [fetch_recent_submissions, hexec, hchunk, Bool.false_eq_true, if_false]
    split <;> rfl
  · simp only [runFetchQuery, List.length_map, List.length_take]
    exact min_le_left _ _
  · have hs : List.Sorted submittedGE (List.insertionSort submittedGE st.table) :=
      List.sorted_insertionSort submittedGE st.table
    have ht : List.Sorted submittedGE
        ((List.insertionSort submittedGE st.table).take limit) :=
      hs.sublist (List.take_sublist _ _)
    exact List.pairwise_map.mpr (ht.imp fun hab => hab)
  · intro row hrow
    simp only [runFetchQuery, List.mem_map] at hrow
    obtain ⟨rec, hrec, rfl⟩ := hrow
    refine ⟨rec, ?_, rfl⟩
    have : rec ∈ List.insertionSort submittedGE st.table :=
      List.take_subset _ _ hrec
    exact (List.perm_insertionSort submittedGE st.table).subset this

/-- A store with three records, out of timestamp order, both round trips
healthy. -/
def sampleStore : Store :=
  { table :=
      [⟨"2025-01-01", "Sydney Processing Centre", "Alex Smith", "Centrifuge", "FX-1", "Room 1",
        "OK", true, none, true, none, none, "Sanitized", "", false, "", "a@example.com", 5⟩,
       ⟨"2025-01-02", "Melbourne Processing Centre", "Sam Lee", "Blood Fridge", "FX-2", "Room 2",
        "OK", true, none, true, none, none, "Sanitized", "", false, "", "b@example.com", 9⟩,
       ⟨"2025-01-03", "Brisbane Processing Centre", "Kim Park", "Scale", "FX-3", "Room 3",
        "OK", true, none, true, none, none, "Sanitized", "", true, "", "c@example.com", 1⟩],
    execFails := false,
    inlineResult := true,
    chunkFails := false }

/-- C7 witness: the contract applied to the three-record store with a limit
of two. -/
theorem C7_fetch_recent_contract_witness :
    fetch_recent_submissions sampleStore 2 =
      Except.ok (some (runFetchQuery sampleStore.table 2)) ∧
    (runFetchQuery sampleStore.table 2).length ≤ 2 :=
  ⟨(C7_fetch_recent_contract sampleStore 2 rfl rfl).1,
   (C7_fetch_recent_contract sampleStore 2 rfl rfl).2.1⟩

/-- C8: normalizing a boolean with `bool_to_str` and re-interpreting it at
the store through `CASE WHEN lower(x) = 'true' THEN TRUE ELSE FALSE END`
is the identity, and hence the three boolean columns of any built payload
re-interpret to exactly the raw toggles. -/
theorem C8_bool_normalize_roundtrip (b : Bool) (r : RawInput) :
    sqlBoolColumn (bool_to_str b) = b ∧
    sqlBoolColumn ((buildPayload r (validate r)).alarms_functional) = r.alarms_functional ∧
    sqlBoolColumn ((buildPayload r (validate r)).calibration_confirmed) =
      r.calibration_confirmed ∧
    sqlBoolColumn ((buildPayload r (validate r)).follow_up_required) = r.follow_up_required := by
  have key : ∀ c : Bool, sqlBoolColumn (bool_to_str c) = c := by
    intro c
    cases c <;> decide
  exact ⟨key b, key r.alarms_functional, key r.calibration_confirmed, key r.follow_up_required⟩

/-- C9: the insert statement text is the same string for any two payloads —
field values are never interpolated into it — and every free-text and enum
value travels as a named bound parameter. -/
theorem C9_constant_statement_bound_params (p q : Payload) :
    (insert_submission p).1 = (insert_submission q).1 ∧
    (insert_submission p).2 = p.items ∧
    ("facility_name", PVal.str p.facility_name) ∈ (insert_submission p).2 ∧
    ("nurse_name", PVal.str p.nurse_name) ∈ (insert_submission p).2 ∧
    ("machine_type", PVal.str p.machine_type) ∈ (insert_submission p).2 ∧
    ("machine_id", PVal.str p.machine_id) ∈ (insert_submission p).2 ∧
    ("room_location", PVal.str p.room_location) ∈ (insert_submission p).2 ∧
    ("power_status", PVal.str p.power_status) ∈ (insert_submission p).2 ∧
    ("cleaning_status", PVal.str p.cleaning_status) ∈ (insert_submission p).2 ∧
    ("issues_noted", PVal.str p.issues_noted) ∈ (insert_submission p).2 ∧
    ("follow_up_actions", PVal.str p.follow_up_actions) ∈ (insert_submission p).2 ∧
    ("user_email", PVal.str p.user_email) ∈ (insert_submission p).2 := by
  refine ⟨rfl, rfl, ?_, ?_, ?_, ?_, ?_, ?_, ?_, ?_, ?_, ?_⟩ <;>
    simp [insert_submission, Payload.items]

/-- C10: every payload handed to the insert carries the whitespace-trimmed
text fields: each of the six free-text columns equals the trim of its raw
input. -/
theorem C10_trimmed_payload (r : RawInput) (h : (validate r).errors = []) :
    handleSubmit r = SubmitAction.insertPayload (buildPayload r (validate r)) ∧
    (buildPayload r (validate r)).facility_name = pyStrip r.facility_name ∧
    (buildPayload r (validate r)).nurse_name = pyStrip r.nurse_name ∧
    (buildPayload r (validate r)).machine_id = pyStrip r.machine_id ∧
    (buildPayload r (validate r)).room_location = pyStrip r.room_location ∧
    (buildPayload r (validate r)).issues_noted = pyStrip r.issues_noted ∧
    (buildPayload r (validate r)).follow_up_actions = pyStrip r.follow_up_actions := by
  exact ⟨by simp [handleSubmit, h], rfl, rfl, rfl, rfl, rfl, rfl⟩

/-- C10 witness: the valid sample's payload carries its trimmed fields. -/
theorem C10_trimmed_payload_witness :
    handleSubmit sampleOk = SubmitAction.insertPayload (buildPayload sampleOk (validate sampleOk)) ∧
    (buildPayload sampleOk (validate sampleOk)).facility_name =
      pyStrip sampleOk.facility_name ∧
    (buildPayload sampleOk (validate sampleOk)).nurse_name = pyStrip sampleOk.nurse_name ∧
    (buildPayload sampleOk (validate sampleOk)).machine_id = pyStrip sampleOk.machine_id ∧
    (buildPayload sampleOk (validate sampleOk)).room_location =
      pyStrip sampleOk.room_location ∧
    (buildPayload sampleOk (validate sampleOk)).issues_noted = pyStrip sampleOk.issues_noted ∧
    (buildPayload sampleOk (validate sampleOk)).follow_up_actions =
      pyStrip sampleOk.follow_up_actions :=
  C10_trimmed_payload sampleOk (by decide)
